import Mathlib

/-!
# Verification of the anything-llm text-splitting and vector-store slice

Shallow embedding of:
- `server/utils/TextSplitter/index.js` (the `TextSplitter` facade),
- `server/utils/vectorDbProviders/qdrant/index.js` (the `QDrant` provider),
- `collector/processSingleFile/convert/asDocx` and `.../asPDF/index.js`
  (the DOCX/PDF converters),
together with theorems about the embedded definitions.

External collaborators (the langchain splitter engines, the embedder, the
reranker, the qdrant client, the on-disk persistence helpers) are modelled as
explicit function/value parameters; everything this repository's own code does
with their results is translated faithfully.
-/

namespace AnythingLLM

/-- Model of a JavaScript numeric value as it can reach
`TextSplitter.determineMaxChunkSize`: either `NaN` or an actual number
(modelled as a rational, since no floating point rounding is involved in the
function's comparisons). A `null` argument is modelled as `Option.none` one
level up. -/
inductive JSNum where
  | nan : JSNum
  | num (q : ℚ) : JSNum
  deriving DecidableEq

/-- `isNullOrNaN(value)` from `TextSplitter/index.js` lines 18-21:
`null` is true, otherwise `isNaN(value)`. -/
def isNullOrNaN : Option JSNum → Bool
  | none => true
  | some .nan => true
  | some (.num _) => false

namespace TextSplitter

/-- `TextSplitter.determineMaxChunkSize(preferred = null, embedderLimit = 1000)`
(source lines 137-147):
`prefValue = isNullOrNaN(preferred) ? Number(embedderLimit) : Number(preferred)`,
`limit = Number(embedderLimit)`, returns `prefValue > limit ? limit : prefValue`.
The `embedderLimit` argument is modelled as an actual number (it is the
embedder's `embeddingMaxChunkLength`). -/
def determineMaxChunkSize (preferred : Option JSNum) (embedderLimit : ℚ) : ℚ :=
  let prefValue : ℚ :=
    if isNullOrNaN preferred then embedderLimit
    else match preferred with
      | some (.num q) => q
      | _ => embedderLimit -- unreachable: isNullOrNaN is false only on `some (.num _)`
  let limit := embedderLimit
  if prefValue > limit then limit else prefValue

end TextSplitter

/-- C2: `determineMaxChunkSize(preferred, embedderLimit)` returns
`min(preferred, embedderLimit)`, treating a `null` or `NaN` preferred as
`embedderLimit`; it is idempotent in its first argument, and
`determineMaxChunkSize(null, 500) == 500`. -/
theorem determineMaxChunkSize_spec :
    (∀ (p : Option JSNum) (l : ℚ),
        TextSplitter.determineMaxChunkSize p l =
          match p with
          | some (JSNum.num q) => min q l
          | _ => l) ∧
    (∀ (p : Option JSNum) (l : ℚ),
        TextSplitter.determineMaxChunkSize
            (some (JSNum.num (TextSplitter.determineMaxChunkSize p l))) l =
          TextSplitter.determineMaxChunkSize p l) ∧
    TextSplitter.determineMaxChunkSize none 500 = 500 := by
  have hmain : ∀ (p : Option JSNum) (l : ℚ),
      TextSplitter.determineMaxChunkSize p l =
        match p with
        | some (JSNum.num q) => min q l
        | _ => l := by
    intro p l
    rcases p with _ | (_ | q)
    · simp [TextSplitter.determineMaxChunkSize, isNullOrNaN]
    · simp [TextSplitter.determineMaxChunkSize, isNullOrNaN]
    · show (if q > l then l else q) = min q l
      rw [min_def]
      split_ifs <;> linarith
  refine ⟨hmain, ?_, ?_⟩
  · intro p l
    rw [hmain]
    have hle : TextSplitter.determineMaxChunkSize p l ≤ l := by
      rw [hmain]
      rcases p with _ | (_ | q) <;> simp [min_le_right]
    exact min_eq_left hle
  · rw [hmain]

/-- Document metadata as seen by `TextSplitter.buildHeaderMeta`: the three
recognized keys (`title`, `published`, `chunkSource`), each `none` when the key
is absent from the metadata object and `some s` when present with string value
`s` (string-valued metadata is the only shape the ingestion pipeline produces),
plus the number of any other keys present (`Object.keys(metadata).length` is
the only thing inspected about them). -/
structure Meta where
  title : Option String
  published : Option String
  chunkSource : Option String
  otherKeys : Nat
  deriving DecidableEq

/-- `Object.keys(metadata).length` for a `Meta`. -/
def Meta.keyCount (m : Meta) : Nat :=
  (if m.title.isSome then 1 else 0) + (if m.published.isSome then 1 else 0) +
    (if m.chunkSource.isSome then 1 else 0) + m.otherKeys

/-- JavaScript whitespace test used by `String.prototype.trim` (restricted to
the ASCII whitespace characters that occur in this pipeline's chunk texts). -/
def jsWhitespace (c : Char) : Bool :=
  c = ' ' ∨ c = '\t' ∨ c = '\n' ∨ c = '\r'

/-- JavaScript `String.prototype.trim`: strip leading and trailing
whitespace. -/
def jsTrim (s : String) : String :=
  String.mk (((s.toList.dropWhile jsWhitespace).reverse.dropWhile
    jsWhitespace).reverse)

/-- JavaScript `String.prototype.startsWith`. -/
def jsStartsWith (s pre : String) : Bool :=
  pre.toList.isPrefixOf s.toList

/-- Worker for JavaScript `String.prototype.split`: scan the characters left
to right, cutting a piece at every (non-overlapping) occurrence of the
separator. Structural recursion on a fuel argument so it evaluates in the
kernel; fuel `s.length` suffices since every step consumes at least one
character. -/
def jsSplitGo (sep : List Char) : Nat → List Char → List Char → List (List Char)
  | 0, s, acc => [acc.reverse ++ s]
  | _ + 1, [], acc => [acc.reverse]
  | fuel + 1, c :: rest, acc =>
    if sep ≠ [] ∧ sep.isPrefixOf (c :: rest) then
      acc.reverse :: jsSplitGo sep fuel ((c :: rest).drop sep.length) []
    else jsSplitGo sep fuel rest (c :: acc)

/-- JavaScript `s.split(sep)` for a non-empty separator. -/
def jsSplit (s sep : String) : List String :=
  (jsSplitGo sep.toList s.toList.length s.toList []).map String.mk

namespace TextSplitter

/-- `s.split(sep)?.[1] || null` from the `chunkSource` pluck (source line 190):
index `[1]` is the second piece of the split, and `|| null` turns an empty
piece into `null`. -/
def splitSecond (s sep : String) : Option String :=
  match (jsSplit s sep).get? 1 with
  | some t => if t = "" then none else some t
  | none => none

/-- The `chunkSource` pluck of `PLUCK_MAP` (source lines 169-196) applied to a
present `chunkSource` string: `null` unless the value is a non-empty string
starting with `link://` or `youtube://`; then the first of those two separators
yielding a non-empty `split(...)[1]` provides the promoted source. -/
def chunkSourcePluck (s : String) : Option String :=
  if s = "" then none -- `!metadata?.chunkSource` / `!metadata?.chunkSource.length`
  else if ¬(jsStartsWith s "link://" ∨ jsStartsWith s "youtube://") then none
  else
    match splitSecond s "link://" with
    | some src => some src
    | none => splitSecond s "youtube://"

/-- The `title` pluck: `metadata?.title || null` (source lines 157-162),
promoted under the name `sourceDocument`. -/
def titleEntry : Option String → List (String × String)
  | none => []
  | some t => if t = "" then [] else [("sourceDocument", t)]

/-- The `published` pluck: `metadata?.published || null`
(source lines 163-168). -/
def publishedEntry : Option String → List (String × String)
  | none => []
  | some p => if p = "" then [] else [("published", p)]

/-- The `chunkSource` pluck promoted under the name `source`
(source lines 169-196). -/
def sourceEntry : Option String → List (String × String)
  | none => []
  | some c =>
    match chunkSourcePluck c with
    | none => []
    | some src => [("source", src)]

/-- The entries accumulated into `pluckedData` by `buildHeaderMeta`
(source lines 199-205), in `PLUCK_MAP` insertion order
(`sourceDocument`, `published`, `source`). A key absent from the metadata is
skipped, and a pluck returning `null`/empty is skipped. -/
def pluckedEntries (m : Meta) : List (String × String) :=
  titleEntry m.title ++ publishedEntry m.published ++ sourceEntry m.chunkSource

/-- `TextSplitter.buildHeaderMeta(metadata = {})` (source lines 154-208):
`null` for a missing metadata object or one with no keys, otherwise the
plucked-data object (possibly with no entries). -/
def buildHeaderMeta : Option Meta → Option (List (String × String))
  | none => none
  | some m => if m.keyCount = 0 then none else some (pluckedEntries m)

/-- The local `content` accumulated by `stringifyHeader` (source lines
215-219): concatenate `"key: value\n"` for every entry whose key and value are
both truthy (non-empty). -/
def headerContent (entries : List (String × String)) : String :=
  entries.foldl
    (fun acc kv =>
      if kv.1 = "" ∨ kv.2 = "" then acc
      else acc ++ kv.1 ++ ": " ++ kv.2 ++ "\n") ""

/-- `TextSplitter.prototype.stringifyHeader()` (source lines 213-223) as a
function of `config.chunkHeaderMeta`: `null` when the meta is `null`, and
`null` instead of an empty `<document_metadata>` block when no entry
contributes. -/
def stringifyHeader (chunkHeaderMeta : Option (List (String × String))) :
    Option String :=
  match chunkHeaderMeta with
  | none => none
  | some entries =>
    if headerContent entries = "" then none
    else some ("<document_metadata>\n" ++ headerContent entries ++
      "</document_metadata>\n\n")

/-- `TextSplitter.prototype.splitText(documentText)` (source lines 365-367)
delegates to the configured splitter's `_splitText`, and every splitter class's
`_splitText` has the same shape (e.g. `RecursiveSplitter`, lines 396-405): with
no chunk header, return `engine.splitText(documentText)` unchanged; with a
header, feed the split strings through
`engine.createDocuments(strings, [], { chunkHeader })` and keep the documents
with non-empty `pageContent`. The langchain engine is an external collaborator,
passed in as `engineSplit` / `engineCreateDocs`. -/
def splitText (engineSplit : String → List String)
    (engineCreateDocs : List String → String → List String)
    (chunkHeader : Option String) (documentText : String) : List String :=
  match chunkHeader with
  | none => engineSplit documentText
  | some h =>
    (engineCreateDocs (engineSplit documentText) h).filter (fun s => s ≠ "")

end TextSplitter

/-- C1 counterexample: the facade performs no minimum-chunk-size
post-processing. A strategy engine that returns the chunk `"ab"` (as every
configured character-based engine does for an input shorter than `chunkSize`)
has that chunk — of trimmed length `2 < 100` — returned unchanged by
`splitText`, refuting "chunks shorter than minChunkSize are dropped in the
facade's post-processing". -/
theorem splitText_returns_chunk_below_minChunkSize :
    "ab" ∈ TextSplitter.splitText (fun _ => ["ab"]) (fun ss _ => ss) none "ab" ∧
    (jsTrim "ab").length < 100 := by
  constructor
  · simp [TextSplitter.splitText]
  · decide

/-- C1 (amended): `TextSplitter.splitText` applies no minimum-size
post-processing (the facade has no `minChunkSize` at all): with no configured
header every chunk the strategy engine returns — whatever its trimmed
length — is returned unchanged, and with a configured header every non-empty
header-injected chunk is kept. -/
theorem splitText_no_min_size_filter (engineSplit : String → List String)
    (engineCreateDocs : List String → String → List String)
    (t c : String) (hc : c ∈ engineSplit t) :
    c ∈ TextSplitter.splitText engineSplit engineCreateDocs none t ∧
    (∀ hdr d, d ∈ engineCreateDocs (engineSplit t) hdr → d ≠ "" →
      d ∈ TextSplitter.splitText engineSplit engineCreateDocs (some hdr) t) := by
  constructor
  · simpa [TextSplitter.splitText] using hc
  · intro hdr d hd hne
    simp [TextSplitter.splitText, List.mem_filter, hd, hne]

/-- Witness for C1's amended theorem at a concrete engine and input. -/
theorem splitText_no_min_size_filter_witness :
    "ab" ∈ TextSplitter.splitText (fun _ => ["ab"]) (fun ss _ => ss) none "x" :=
  (splitText_no_min_size_filter (fun _ => ["ab"]) (fun ss _ => ss) "x" "ab"
    (by simp)).1

/-- C10: a chunk header block is only built from actually-promoted metadata:
`buildHeaderMeta` is `null` for missing or key-less metadata; every plucked
entry is one of the three recognized promotions (`title` as `sourceDocument`,
`published`, or a `link://`/`youtube://`-prefixed `chunkSource` as `source`,
prefix stripped — illustrated on concrete inputs); and `stringifyHeader` is
`null` rather than an empty `<document_metadata>` block whenever no promoted
value exists, so `splitText` never prefixes a chunk with an empty header. -/
theorem header_never_empty :
    (TextSplitter.buildHeaderMeta none = none) ∧
    (∀ m : Meta, m.keyCount = 0 → TextSplitter.buildHeaderMeta (some m) = none) ∧
    (∀ m : Meta, ∀ kv ∈ TextSplitter.pluckedEntries m,
        (kv.1 = "sourceDocument" ∧ m.title = some kv.2 ∧ kv.2 ≠ "") ∨
        (kv.1 = "published" ∧ m.published = some kv.2 ∧ kv.2 ≠ "") ∨
        (kv.1 = "source" ∧ ∃ cs, m.chunkSource = some cs ∧
          (jsStartsWith cs "link://" ∨ jsStartsWith cs "youtube://") ∧
          TextSplitter.chunkSourcePluck cs = some kv.2)) ∧
    (TextSplitter.chunkSourcePluck "link://https://example.com" =
        some "https://example.com" ∧
      TextSplitter.chunkSourcePluck "youtube://abc" = some "abc" ∧
      TextSplitter.chunkSourcePluck "file://x" = none ∧
      TextSplitter.chunkSourcePluck "link://" = none) ∧
    (∀ m : Meta, TextSplitter.pluckedEntries m = [] →
      TextSplitter.stringifyHeader (TextSplitter.buildHeaderMeta (some m)) =
        none) ∧
    (∀ hm s, TextSplitter.stringifyHeader hm = some s →
      ∃ c, c ≠ "" ∧ s = "<document_metadata>\n" ++ c ++ "</document_metadata>\n\n") := by
  refine ⟨rfl, ?_, ?_, ?_, ?_, ?_⟩
  · intro m h
    simp [TextSplitter.buildHeaderMeta, h]
  · intro m kv hkv
    simp only [TextSplitter.pluckedEntries, List.mem_append] at hkv
    rcases hkv with (hkv | hkv) | hkv
    · left
      rcases ht : m.title with _ | t <;> rw [ht] at hkv
      · cases hkv
      · simp only [TextSplitter.titleEntry] at hkv
        by_cases h0 : t = ""
        · rw [if_pos h0] at hkv; cases hkv
        · rw [if_neg h0] at hkv
          rcases List.mem_singleton.mp hkv with hkveq
          subst hkveq
          exact ⟨rfl, rfl, h0⟩
    · right; left
      rcases hp : m.published with _ | p <;> rw [hp] at hkv
      · cases hkv
      · simp only [TextSplitter.publishedEntry] at hkv
        by_cases h0 : p = ""
        · rw [if_pos h0] at hkv; cases hkv
        · rw [if_neg h0] at hkv
          rcases List.mem_singleton.mp hkv with hkveq
          subst hkveq
          exact ⟨rfl, rfl, h0⟩
    · right; right
      rcases hc : m.chunkSource with _ | c <;> rw [hc] at hkv
      · cases hkv
      · simp only [TextSplitter.sourceEntry] at hkv
        rcases hpl : TextSplitter.chunkSourcePluck c with _ | src <;>
          rw [hpl] at hkv
        · cases hkv
        · rcases List.mem_singleton.mp hkv with hkveq
          subst hkveq
          refine ⟨rfl, c, rfl, ?_, hpl⟩
          by_contra hns
          have hnone : TextSplitter.chunkSourcePluck c = none := by
            unfold TextSplitter.chunkSourcePluck
            by_cases he : c = ""
            · rw [if_pos he]
            · rw [if_neg he, if_pos hns]
          rw [hnone] at hpl
          exact Option.noConfusion hpl
  · refine ⟨?_, ?_, ?_, ?_⟩ <;> decide
  · intro m h
    simp only [TextSplitter.buildHeaderMeta]
    split_ifs with hk
    · rfl
    · rw [h]
      simp [TextSplitter.stringifyHeader, TextSplitter.headerContent]
  · intro hm s hs
    rcases hm with _ | entries
    · exact Option.noConfusion hs
    · simp only [TextSplitter.stringifyHeader] at hs
      by_cases h0 : TextSplitter.headerContent entries = ""
      · rw [if_pos h0] at hs
        exact Option.noConfusion hs
      · rw [if_neg h0] at hs
        exact ⟨TextSplitter.headerContent entries, h0, (Option.some.inj hs).symm⟩

/-- Witness for C10: metadata with keys but no promotable value (an empty
title, no published date, a `chunkSource` without a recognized scheme) yields
no header at all. -/
theorem header_never_empty_witness :
    TextSplitter.stringifyHeader
      (TextSplitter.buildHeaderMeta
        (some { title := some "", published := none,
                chunkSource := some "file://x", otherKeys := 2 })) = none :=
  (header_never_empty).2.2.2.2.1
    { title := some "", published := none,
      chunkSource := some "file://x", otherKeys := 2 }
    (by decide)

namespace QDrant

/-- A point payload as stored by `addDocumentToNamespace`
(`{ ...metadata, text }`): the chunk text plus the identifying document
metadata, which this model carries pre-digested as `sourceId`, the value of
`sourceIdentifier(payload)` (a pure function of the payload, defined in
`server/utils/chats`, outside this source slice). -/
structure Payload where
  text : String
  sourceId : String
  deriving DecidableEq

/-- A scored point as returned by the qdrant client's
`query`/`search`/`discoverPoints` calls. -/
structure Response where
  id : Nat
  score : ℚ
  payload : Payload
  deriving DecidableEq

/-- An entry of `result.sourceDocuments`: `{ ...(response?.payload || {}),
id: response.id }`. -/
structure SourceDoc where
  payload : Payload
  id : Nat
  deriving DecidableEq

/-- The `result` object built by the search forEach loops: three parallel
arrays. -/
structure SearchResult where
  contextTexts : List String
  sourceDocuments : List SourceDoc
  scores : List ℚ
  deriving DecidableEq

/-- The qdrant backend as seen by one `performSimilaritySearch` call: the
response (or rejection) of each remote call the pipeline can issue, with the
request parameters (namespace, query vector, limit, `score_threshold`,
prefetch) already fixed. `queryPoints` is `client.query` without prefetch
(plain vector search, line 330), `searchPoints` is the legacy `client.search`
fallback (line 344), `discoverPoints` is `client.discoverPoints` (line 194),
and `hybridQuery` is `client.query` with the lexical prefetch (line 254). -/
structure Client where
  queryPoints : Except String (List Response)
  searchPoints : Except String (List Response)
  discoverPoints : Except String (List Response)
  hybridQuery : Except String (List Response)

/-- The forEach of `similarityResponse` (source lines 352-367): skip a
response with `score < similarityThreshold`, skip a response whose
`sourceIdentifier(payload)` is in `filterIdentifiers`, and push
text/source/score in order (`response?.payload?.text || ""` is the payload
text, `|| ""` being the identity on strings). -/
def similarityCollect (similarityThreshold : ℚ) (filterIdentifiers : List String)
    (responses : List Response) : SearchResult :=
  let kept := responses.filter fun r =>
    !decide (r.score < similarityThreshold) &&
      !decide (r.payload.sourceId ∈ filterIdentifiers)
  { contextTexts := kept.map fun r => r.payload.text
    sourceDocuments := kept.map fun r => { payload := r.payload, id := r.id }
    scores := kept.map fun r => r.score }

/-- The forEach shared by `performDiscoverySearch` (source lines 208-222) and
`performHybridSearch` (source lines 276-290): identical to
`similarityCollect`'s loop except that no client-side score check is made
(those two strategies rely on the `score_threshold` passed to the backend). -/
def discoveryCollect (filterIdentifiers : List String)
    (responses : List Response) : SearchResult :=
  let kept := responses.filter fun r =>
    !decide (r.payload.sourceId ∈ filterIdentifiers)
  { contextTexts := kept.map fun r => r.payload.text
    sourceDocuments := kept.map fun r => { payload := r.payload, id := r.id }
    scores := kept.map fun r => r.score }

/-- `similarityResponse` (source lines 312-374): try the query API, fall back
to the search API on its failure, collect with the client-side score and pin
filters; the outer catch rethrows (line 372), so a failure of both calls is an
error. -/
def similarityResponse (client : Client) (similarityThreshold : ℚ)
    (filterIdentifiers : List String) : Except String SearchResult :=
  match client.queryPoints with
  | .ok rs => .ok (similarityCollect similarityThreshold filterIdentifiers rs)
  | .error _ =>
    match client.searchPoints with
    | .ok rs => .ok (similarityCollect similarityThreshold filterIdentifiers rs)
    | .error e => .error e

/-- `performDiscoverySearch` (source lines 184-239): on success collect the
discovery responses (pin filter only; `score_threshold` was sent to the
backend); on any failure fall back to `similarityResponse` with the same
parameters. -/
def performDiscoverySearch (client : Client) (similarityThreshold : ℚ)
    (filterIdentifiers : List String) : Except String SearchResult :=
  match client.discoverPoints with
  | .ok rs => .ok (discoveryCollect filterIdentifiers rs)
  | .error _ => similarityResponse client similarityThreshold filterIdentifiers

/-- `performHybridSearch` (source lines 244-307): on success collect the
hybrid query responses; on any failure fall back to `similarityResponse` with
the same parameters. -/
def performHybridSearch (client : Client) (similarityThreshold : ℚ)
    (filterIdentifiers : List String) : Except String SearchResult :=
  match client.hybridQuery with
  | .ok rs => .ok (discoveryCollect filterIdentifiers rs)
  | .error _ => similarityResponse client similarityThreshold filterIdentifiers

/-- A source object as returned by `performSimilaritySearch`: in the rerank
path `{ text, ...sourceDocuments[i] }` (the payload's own `text` key is spread
after the standalone `text` and wins; both equal the payload text), in the
plain path `{ ...metadata, text: contextTexts[i] }`. -/
structure RerankDoc where
  text : String
  payload : Payload
  id : Nat
  deriving DecidableEq

/-- The `documents` array built before reranking (source lines 149-152). The
two parallel arrays have equal length by construction of every
`SearchResult`. -/
def mkRerankDocs (sr : SearchResult) : List RerankDoc :=
  (sr.contextTexts.zip sr.sourceDocuments).map fun p =>
    { text := p.2.payload.text, payload := p.2.payload, id := p.2.id }

/-- The sources built on the non-reranked return (source lines 171-176):
each source document with the matching context text attached. -/
def mkPlainSources (sr : SearchResult) : List RerankDoc :=
  (sr.sourceDocuments.zip sr.contextTexts).map fun p =>
    { text := p.2, payload := p.1.payload, id := p.1.id }

/-- `curateSources` (source lines 814-825): keep every non-empty source,
projecting a nested `metadata` key when one is present. Every source built by
this pipeline model is a non-empty record with no nested `metadata` key, so
each one passes through unchanged. -/
def curateSources (sources : List RerankDoc) : List RerankDoc :=
  sources

/-- Modelled from the spec: `NativeEmbeddingReranker.rerank(query, documents,
{topK})` lives in `server/utils/EmbeddingRerankers/native`, outside this
source slice; per the spec it returns a reordering of the given `documents`
(a secondary relevance-scoring pass reordering an initial candidate set, down
to `topK`). It is represented by the index selection it makes into
`documents`. -/
def applyRerank (documents : List RerankDoc) (sel : List Nat) : List RerankDoc :=
  sel.filterMap fun i => documents.get? i

/-- The value of one `performSimilaritySearch` call. -/
structure PSSOutput where
  contextTexts : List String
  sources : List RerankDoc
  message : Option String
  deriving DecidableEq

/-- `performSimilaritySearch` (source lines 89-179). Parameters: `client` is
the connected backend, `nsExists` the result of `namespaceExists`, `ns` /
`input` the namespace and query text, `hasLLMConnector` whether an embedder
was supplied, then the search options. The embedded query vector is already
folded into `client`'s responses. `rerankSel` is the external reranker's
outcome: its index selection into the candidate `documents`, or its
failure. -/
def performSimilaritySearch (client : Client) (nsExists : Bool)
    (ns input : String) (hasLLMConnector : Bool) (similarityThreshold : ℚ)
    (filterIdentifiers : List String) (rerank : Bool)
    (rerankSel : Except String (List Nat)) (searchStrategy : String)
    (contextPairsLength : Nat) : Except String PSSOutput :=
  if ns = "" ∨ input = "" ∨ hasLLMConnector = false then
    .error "Invalid request to performSimilaritySearch."
  else if nsExists = false then
    .ok { contextTexts := [], sources := [],
          message := some "Invalid query - no documents found for workspace!" }
  else
    match (if searchStrategy = "discovery" ∧ 0 < contextPairsLength then
        performDiscoverySearch client similarityThreshold filterIdentifiers
      else if searchStrategy = "hybrid" then
        performHybridSearch client similarityThreshold filterIdentifiers
      else
        similarityResponse client similarityThreshold filterIdentifiers) with
    | .error e => .error e
    | .ok searchResults =>
      if rerank then
        match rerankSel with
        | .ok sel =>
          -- the local `rerankedResults` of lines 155-157
          .ok { contextTexts :=
                  (applyRerank (mkRerankDocs searchResults) sel).map
                    (fun d => d.text),
                sources :=
                  curateSources (applyRerank (mkRerankDocs searchResults) sel),
                message := none }
        | .error _ =>
          -- reranking failed: fall through to the original results (line 164)
          .ok { contextTexts := searchResults.contextTexts,
                sources := curateSources (mkPlainSources searchResults),
                message := none }
      else
        .ok { contextTexts := searchResults.contextTexts,
              sources := curateSources (mkPlainSources searchResults),
              message := none }

theorem similarityCollect_scores_ge (th : ℚ) (fids : List String)
    (rs : List Response) :
    ∀ s ∈ (similarityCollect th fids rs).scores, ¬s < th := by
  intro s hs
  simp only [similarityCollect, List.mem_map] at hs
  obtain ⟨r, hr, rfl⟩ := hs
  rw [List.mem_filter] at hr
  have h2 := hr.2
  simp only [Bool.and_eq_true, Bool.not_eq_true', decide_eq_false_iff_not] at h2
  exact h2.1

theorem discoveryCollect_scores_ge (th : ℚ) (fids : List String)
    (rs : List Response) (hall : ∀ r ∈ rs, ¬r.score < th) :
    ∀ s ∈ (discoveryCollect fids rs).scores, ¬s < th := by
  intro s hs
  simp only [discoveryCollect, List.mem_map] at hs
  obtain ⟨r, hr, rfl⟩ := hs
  rw [List.mem_filter] at hr
  exact hall r hr.1

theorem similarityResponse_scores_ge (client : Client) (th : ℚ)
    (fids : List String) (res : SearchResult)
    (h : similarityResponse client th fids = .ok res) :
    ∀ s ∈ res.scores, ¬s < th := by
  unfold similarityResponse at h
  cases hq : client.queryPoints with
  | ok rs =>
    rw [hq] at h
    cases h
    exact similarityCollect_scores_ge th fids rs
  | error e =>
    rw [hq] at h
    cases hs : client.searchPoints with
    | ok rs =>
      rw [hs] at h
      cases h
      exact similarityCollect_scores_ge th fids rs
    | error e2 =>
      rw [hs] at h
      cases h

/-- C3: no search strategy returns a result whose similarity score is below
`similarityThreshold`. The plain vector path re-checks the score client-side
(line 353); the discovery and hybrid paths pass `score_threshold` to the
backend (lines 199 and 258), so for them the hypothesis is the backend's
documented `score_threshold` contract: every point a successful
`discoverPoints`/`query` call returns scores at least the threshold. Under
that contract the exclusion is the same across all three strategies. -/
theorem search_threshold_filter (client : Client) (th : ℚ)
    (fids : List String)
    (hd : ∀ rs, client.discoverPoints = .ok rs → ∀ r ∈ rs, ¬r.score < th)
    (hh : ∀ rs, client.hybridQuery = .ok rs → ∀ r ∈ rs, ¬r.score < th) :
    (∀ res, similarityResponse client th fids = .ok res →
      ∀ s ∈ res.scores, ¬s < th) ∧
    (∀ res, performDiscoverySearch client th fids = .ok res →
      ∀ s ∈ res.scores, ¬s < th) ∧
    (∀ res, performHybridSearch client th fids = .ok res →
      ∀ s ∈ res.scores, ¬s < th) := by
  refine ⟨fun res h => similarityResponse_scores_ge client th fids res h, ?_, ?_⟩
  · intro res h
    unfold performDiscoverySearch at h
    cases hq : client.discoverPoints with
    | ok rs =>
      rw [hq] at h
      cases h
      exact discoveryCollect_scores_ge th fids rs (hd rs hq)
    | error e =>
      rw [hq] at h
      exact similarityResponse_scores_ge client th fids res h
  · intro res h
    unfold performHybridSearch at h
    cases hq : client.hybridQuery with
    | ok rs =>
      rw [hq] at h
      cases h
      exact discoveryCollect_scores_ge th fids rs (hh rs hq)
    | error e =>
      rw [hq] at h
      exact similarityResponse_scores_ge client th fids res h

/-- Witness for C3 at a concrete client: the plain path returns the score-2
point at threshold 1 and indeed `¬ 2 < 1`. -/
theorem search_threshold_filter_witness : ¬(2 : ℚ) < 1 :=
  (search_threshold_filter
      ⟨.ok [⟨7, 2, ⟨"text", "sid"⟩⟩], .error "down", .ok [], .ok []⟩ 1 []
      (fun rs hrs => by cases hrs; intro r hr; cases hr)
      (fun rs hrs => by cases hrs; intro r hr; cases hr)).1
    (similarityCollect 1 [] [⟨7, 2, ⟨"text", "sid"⟩⟩]) rfl 2
    (by simp [similarityCollect])

theorem similarityCollect_sources_unpinned (th : ℚ) (fids : List String)
    (rs : List Response) :
    ∀ sd ∈ (similarityCollect th fids rs).sourceDocuments,
      sd.payload.sourceId ∉ fids := by
  intro sd hsd
  simp only [similarityCollect, List.mem_map] at hsd
  obtain ⟨r, hr, rfl⟩ := hsd
  rw [List.mem_filter] at hr
  have h2 := hr.2
  simp only [Bool.and_eq_true, Bool.not_eq_true', decide_eq_false_iff_not] at h2
  exact h2.2

theorem discoveryCollect_sources_unpinned (fids : List String)
    (rs : List Response) :
    ∀ sd ∈ (discoveryCollect fids rs).sourceDocuments,
      sd.payload.sourceId ∉ fids := by
  intro sd hsd
  simp only [discoveryCollect, List.mem_map] at hsd
  obtain ⟨r, hr, rfl⟩ := hsd
  rw [List.mem_filter] at hr
  have h2 := hr.2
  simp only [Bool.not_eq_true', decide_eq_false_iff_not] at h2
  exact h2

theorem similarityResponse_sources_unpinned (client : Client) (th : ℚ)
    (fids : List String) (res : SearchResult)
    (h : similarityResponse client th fids = .ok res) :
    ∀ sd ∈ res.sourceDocuments, sd.payload.sourceId ∉ fids := by
  unfold similarityResponse at h
  cases hq : client.queryPoints with
  | ok rs =>
    rw [hq] at h
    cases h
    exact similarityCollect_sources_unpinned th fids rs
  | error e =>
    rw [hq] at h
    cases hs : client.searchPoints with
    | ok rs =>
      rw [hs] at h
      cases h
      exact similarityCollect_sources_unpinned th fids rs
    | error e2 =>
      rw [hs] at h
      cases h

theorem performDiscoverySearch_sources_unpinned (client : Client) (th : ℚ)
    (fids : List String) (res : SearchResult)
    (h : performDiscoverySearch client th fids = .ok res) :
    ∀ sd ∈ res.sourceDocuments, sd.payload.sourceId ∉ fids := by
  unfold performDiscoverySearch at h
  cases hq : client.discoverPoints with
  | ok rs =>
    rw [hq] at h
    cases h
    exact discoveryCollect_sources_unpinned fids rs
  | error e =>
    rw [hq] at h
    exact similarityResponse_sources_unpinned client th fids res h

theorem performHybridSearch_sources_unpinned (client : Client) (th : ℚ)
    (fids : List String) (res : SearchResult)
    (h : performHybridSearch client th fids = .ok res) :
    ∀ sd ∈ res.sourceDocuments, sd.payload.sourceId ∉ fids := by
  unfold performHybridSearch at h
  cases hq : client.hybridQuery with
  | ok rs =>
    rw [hq] at h
    cases h
    exact discoveryCollect_sources_unpinned fids rs
  | error e =>
    rw [hq] at h
    exact similarityResponse_sources_unpinned client th fids res h

theorem mem_mkRerankDocs (sr : SearchResult) (d : RerankDoc)
    (hd : d ∈ mkRerankDocs sr) :
    ∃ sd ∈ sr.sourceDocuments, d.payload = sd.payload := by
  simp only [mkRerankDocs, List.mem_map] at hd
  obtain ⟨p, hp, rfl⟩ := hd
  exact ⟨p.2, (List.of_mem_zip hp).2, rfl⟩

theorem mem_mkPlainSources (sr : SearchResult) (d : RerankDoc)
    (hd : d ∈ mkPlainSources sr) :
    ∃ sd ∈ sr.sourceDocuments, d.payload = sd.payload := by
  simp only [mkPlainSources, List.mem_map] at hd
  obtain ⟨p, hp, rfl⟩ := hd
  exact ⟨p.1, (List.of_mem_zip hp).1, rfl⟩

theorem mem_applyRerank (documents : List RerankDoc) (sel : List Nat)
    (d : RerankDoc) (hd : d ∈ applyRerank documents sel) : d ∈ documents := by
  simp only [applyRerank, List.mem_filterMap] at hd
  obtain ⟨i, _, hi⟩ := hd
  exact List.get?_mem hi

/-- C4: for every search strategy, with or without re-ranking,
`performSimilaritySearch` never returns a source document whose
`sourceIdentifier` is contained in `filterIdentifiers`: all three strategy
loops apply the identical pin-exclusion check before pushing a result, and
both the rerank and the plain return paths only draw from the filtered
candidates. -/
theorem performSimilaritySearch_pinned_exclusion (client : Client)
    (nsExists : Bool) (ns input : String) (hasLLMConnector : Bool) (th : ℚ)
    (fids : List String) (rerank : Bool) (rerankSel : Except String (List Nat))
    (searchStrategy : String) (contextPairsLength : Nat) (o : PSSOutput)
    (h : performSimilaritySearch client nsExists ns input hasLLMConnector th
      fids rerank rerankSel searchStrategy contextPairsLength = .ok o) :
    ∀ d ∈ o.sources, d.payload.sourceId ∉ fids := by
  unfold performSimilaritySearch at h
  by_cases hvalid : ns = "" ∨ input = "" ∨ hasLLMConnector = false
  · rw [if_pos hvalid] at h
    cases h
  rw [if_neg hvalid] at h
  by_cases hns : nsExists = false
  · rw [if_pos hns] at h
    cases h
    intro d hd
    cases hd
  rw [if_neg hns] at h
  have hsr : ∀ sr : SearchResult,
      (if searchStrategy = "discovery" ∧ 0 < contextPairsLength then
        performDiscoverySearch client th fids
      else if searchStrategy = "hybrid" then
        performHybridSearch client th fids
      else similarityResponse client th fids) = .ok sr →
      ∀ sd ∈ sr.sourceDocuments, sd.payload.sourceId ∉ fids := by
    intro sr hok
    split_ifs at hok with h1 h2
    · exact performDiscoverySearch_sources_unpinned client th fids sr hok
    · exact performHybridSearch_sources_unpinned client th fids sr hok
    · exact similarityResponse_sources_unpinned client th fids sr hok
  split at h
  · cases h
  case _ sr hE =>
    have hun := hsr sr hE
    by_cases hrk : rerank = true
    · rw [if_pos hrk] at h
      cases hsel : rerankSel with
      | ok sel =>
        rw [hsel] at h
        cases h
        intro d hd
        obtain ⟨sd, hsd, hpd⟩ :=
          mem_mkRerankDocs sr d (mem_applyRerank _ sel d hd)
        rw [hpd]
        exact hun sd hsd
      | error e =>
        rw [hsel] at h
        cases h
        intro d hd
        obtain ⟨sd, hsd, hpd⟩ := mem_mkPlainSources sr d hd
        rw [hpd]
        exact hun sd hsd
    · rw [if_neg hrk] at h
      cases h
      intro d hd
      obtain ⟨sd, hsd, hpd⟩ := mem_mkPlainSources sr d hd
      rw [hpd]
      exact hun sd hsd

/-- Witness for C4 at a concrete call: the plain strategy, fed one pinned and
one unpinned point, returns only the unpinned one, whose identifier is not in
`filterIdentifiers`. -/
theorem performSimilaritySearch_pinned_exclusion_witness :
    ({ text := "b", payload := ⟨"b", "ok"⟩, id := 5 } : RerankDoc).payload.sourceId
      ∉ ["pinned"] :=
  performSimilaritySearch_pinned_exclusion
    ⟨.ok [⟨1, 2, ⟨"a", "pinned"⟩⟩, ⟨5, 2, ⟨"b", "ok"⟩⟩], .error "x", .ok [], .ok []⟩
    true "w" "q" true 1 ["pinned"] false (.ok []) "vector" 0
    ⟨["b"], [{ text := "b", payload := ⟨"b", "ok"⟩, id := 5 }], none⟩
    (by rfl)
    { text := "b", payload := ⟨"b", "ok"⟩, id := 5 }
    (by simp)

/-- C5: when the hybrid (resp. discovery) backend call fails,
`performSimilaritySearch` produces exactly the same result as the plain vector
strategy with identical parameters: both strategy implementations catch their
own failure and call `similarityResponse` with the same arguments, so the
strategy-specific error is never propagated to the caller. -/
theorem search_degradation (client : Client) (nsExists : Bool)
    (ns input : String) (hasLLMConnector : Bool) (th : ℚ)
    (fids : List String) (rerank : Bool) (rerankSel : Except String (List Nat))
    (contextPairsLength : Nat) (msgH msgD : String)
    (hh : client.hybridQuery = .error msgH)
    (hd : client.discoverPoints = .error msgD) :
    (performSimilaritySearch client nsExists ns input hasLLMConnector th fids
        rerank rerankSel "hybrid" contextPairsLength =
      performSimilaritySearch client nsExists ns input hasLLMConnector th fids
        rerank rerankSel "vector" contextPairsLength) ∧
    (performSimilaritySearch client nsExists ns input hasLLMConnector th fids
        rerank rerankSel "discovery" contextPairsLength =
      performSimilaritySearch client nsExists ns input hasLLMConnector th fids
        rerank rerankSel "vector" contextPairsLength) := by
  have hhyb : performHybridSearch client th fids =
      similarityResponse client th fids := by
    unfold performHybridSearch
    rw [hh]
  have hdis : performDiscoverySearch client th fids =
      similarityResponse client th fids := by
    unfold performDiscoverySearch
    rw [hd]
  have h2 : ¬(("vector" : String) = "discovery" ∧ 0 < contextPairsLength) :=
    fun hcon => absurd hcon.1 (by decide)
  have h3 : ¬(("vector" : String) = "hybrid") := by decide
  constructor
  · have h1 : ¬(("hybrid" : String) = "discovery" ∧ 0 < contextPairsLength) :=
      fun hcon => absurd hcon.1 (by decide)
    unfold performSimilaritySearch
    rw [if_neg h1, if_pos (rfl : ("hybrid" : String) = "hybrid"), if_neg h2,
      if_neg h3, hhyb]
  · unfold performSimilaritySearch
    by_cases hcp : 0 < contextPairsLength
    · have h6 : ("discovery" : String) = "discovery" ∧ 0 < contextPairsLength :=
        ⟨rfl, hcp⟩
      rw [if_pos h6, if_neg h2, if_neg h3, hdis]
    · have h4 : ¬(("discovery" : String) = "discovery" ∧ 0 < contextPairsLength) :=
        fun hcon => hcp hcon.2
      have h5 : ¬(("discovery" : String) = "hybrid") := by decide
      rw [if_neg h4, if_neg h5, if_neg h2, if_neg h3]

/-- Witness for C5 at a concrete client whose hybrid and discovery calls both
fail. -/
theorem search_degradation_witness :
    performSimilaritySearch ⟨.ok [], .error "e", .error "boomD", .error "boomH"⟩
        true "w" "q" true 1 [] false (.ok []) "hybrid" 2 =
      performSimilaritySearch ⟨.ok [], .error "e", .error "boomD", .error "boomH"⟩
        true "w" "q" true 1 [] false (.ok []) "vector" 2 :=
  (search_degradation ⟨.ok [], .error "e", .error "boomD", .error "boomH"⟩
      true "w" "q" true 1 [] false (.ok []) 2 "boomH" "boomD" rfl rfl).1

/-- The batch-slicing loop `for (let i = 0; i < xs.length; i += batchSize)
{ const batch = xs.slice(i, i + batchSize); ... }` used for embedding
(batch size 50), upserting (100) and deleting (100). Structural recursion on a
fuel argument so it evaluates in the kernel; fuel `xs.length` suffices since
every call site uses a positive batch size. -/
def sliceBatchesGo (n : Nat) : Nat → List α → List (List α)
  | 0, _ => []
  | _ + 1, [] => []
  | fuel + 1, x :: xs =>
    ((x :: xs).take n) :: sliceBatchesGo n fuel ((x :: xs).drop n)

/-- The list of size-`n` slices of `xs`, in order. -/
def sliceBatches (n : Nat) (xs : List α) : List (List α) :=
  sliceBatchesGo n xs.length xs

theorem sliceBatchesGo_join (n : Nat) (hn : 0 < n) :
    ∀ (fuel : Nat) (xs : List α), xs.length ≤ fuel →
      (sliceBatchesGo n fuel xs).flatten = xs := by
  intro fuel
  induction fuel with
  | zero =>
    intro xs hxs
    rw [Nat.le_zero, List.length_eq_zero] at hxs
    subst hxs
    rfl
  | succ f ih =>
    intro xs hxs
    cases xs with
    | nil => rfl
    | cons x xs =>
      simp only [sliceBatchesGo, List.flatten]
      rw [ih ((x :: xs).drop n) (by simp only [List.length_drop]; omega)]
      exact List.take_append_drop n (x :: xs)

theorem sliceBatchesGo_mem_bounds (n : Nat) (hn : 0 < n) :
    ∀ (fuel : Nat) (xs : List α), ∀ b ∈ sliceBatchesGo n fuel xs,
      0 < b.length ∧ b.length ≤ n := by
  intro fuel
  induction fuel with
  | zero => intro xs b hb; cases hb
  | succ f ih =>
    intro xs b hb
    cases xs with
    | nil => cases hb
    | cons x xs =>
      simp only [sliceBatchesGo, List.mem_cons] at hb
      rcases hb with rfl | hb
      · constructor
        · simp only [List.length_take, List.length_cons]
          omega
        · simp [List.length_take_le]
      · exact ih _ b hb

theorem sliceBatches_join (n : Nat) (hn : 0 < n) (xs : List α) :
    (sliceBatches n xs).flatten = xs :=
  sliceBatchesGo_join n hn xs.length xs le_rfl

theorem sliceBatches_mem_bounds (n : Nat) (hn : 0 < n) (xs : List α) :
    ∀ b ∈ sliceBatches n xs, 0 < b.length ∧ b.length ≤ n :=
  sliceBatchesGo_mem_bounds n hn xs.length xs

/-- The embedding loop of `addDocumentToNamespace` (source lines 523-531):
call `EmbedderEngine.embedChunks` on each 50-slice of the chunks in order;
a batch returning `null` or no vectors throws `Failed to embed batch ...`,
modelled as `none` (later batches are then never embedded). -/
def embedAllBatches (embedChunks : List String → List (List ℚ)) :
    List (List String) → Option (List (List String × List (List ℚ)))
  | [] => some []
  | b :: bs =>
    if (embedChunks b).isEmpty then none
    else
      match embedAllBatches embedChunks bs with
      | none => none
      | some rest => some ((b, embedChunks b) :: rest)

/-- A vector record built at source lines 537-541: fresh id (`uuidv4()`,
modelled as a counter value), the embedding, and the payload
`{ ...metadata, text: batch[j] }`. -/
structure VectorRecord where
  id : Nat
  vector : List ℚ
  payload : Payload
  deriving DecidableEq

/-- A `documentVectors` entry `{ docId, vectorId }` (source line 544). -/
structure DocVecEntry where
  docId : Nat
  vectorId : Nat
  deriving DecidableEq

/-- The records built from one embedded batch (source lines 533-545): the
inner loop runs over `vectorValues` indices; the embedder contract gives
parallel arrays, so `batch[j]` is the matching chunk (`getD` covers the
out-of-range `undefined` that JavaScript would produce on a length
mismatch). -/
def batchRecords (metaSourceId : String) (firstId : Nat) (batch : List String)
    (vs : List (List ℚ)) : List VectorRecord :=
  (List.range vs.length).map fun j =>
    { id := firstId + j, vector := vs.getD j [],
      payload := { text := batch.getD j "", sourceId := metaSourceId } }

/-- `allVectors` accumulated over all embedded batches, with the fresh-id
counter threaded through. -/
def buildAllRecords (metaSourceId : String) :
    Nat → List (List String × List (List ℚ)) → List VectorRecord
  | _, [] => []
  | nextId, (b, vs) :: rest =>
    batchRecords metaSourceId nextId b vs ++
      buildAllRecords metaSourceId (nextId + vs.length) rest

/-- The attempt loop of `batchInsertVectors` for one batch (source lines
652-670): `ok attempt` is whether the backend upsert succeeds with status
`completed` at that attempt. The first argument counts the remaining attempts
(initially `retries`); returns whether the batch eventually succeeded together
with the backoff delays slept, `2^attempt * 1000` ms after each failed
non-final attempt (the final failed attempt throws instead of sleeping). -/
def upsertAttempts (ok : Nat → Bool) : Nat → Nat → Bool × List Nat
  | 0, _ => (false, [])
  | remaining + 1, attempt =>
    if ok attempt then (true, [])
    else if remaining = 0 then (false, [])
    else
      match upsertAttempts ok remaining (attempt + 1) with
      | (s, ds) => (s, (2 ^ attempt * 1000) :: ds)

/-- The batch loop of `batchInsertVectors` (source lines 642-671), batch index
threaded for the per-batch upsert outcomes: returns the overall outcome, the
batches successfully upserted (earlier batches stay upserted when a later one
fails — no rollback), and all delays slept. -/
def batchInsertLoop (ok : Nat → Nat → Bool) (retries : Nat) :
    List (List VectorRecord) → Nat →
      Except String Unit × List (List VectorRecord) × List Nat
  | [], _ => (.ok (), [], [])
  | b :: bs, bIdx =>
    match upsertAttempts (ok bIdx) retries 0 with
    | (true, ds) =>
      match batchInsertLoop ok retries bs (bIdx + 1) with
      | (r, ups, ds2) => (r, b :: ups, ds ++ ds2)
    | (false, ds) =>
      (.error "Failed to insert batch after 3 attempts", [], ds)

/-- `batchInsertVectors(client, namespace, vectors, retries = 3)` (source
lines 639-672): slice the vectors into 100-slices and upsert each with the
retry loop. -/
def batchInsertVectors (ok : Nat → Nat → Bool) (vectors : List VectorRecord)
    (retries : Nat := 3) :
    Except String Unit × List (List VectorRecord) × List Nat :=
  batchInsertLoop ok retries (sliceBatches 100 vectors) 0

/-- The value of one `addDocumentToNamespace` call: the bare `return false`
for empty page content (line 487), or the `{ vectorized, error }` result. -/
inductive AddReturn where
  | invalidInput : AddReturn
  | result (vectorized : Bool) (error : Option String) : AddReturn
  deriving DecidableEq

/-- What one `addDocumentToNamespace` call commits: whether
`getOrCreateCollection` created the collection, which vector batches were
upserted, and which `DocumentVectors` index entries were bulk-inserted. -/
structure IngestEffects where
  createdCollection : Bool
  upserts : List (List VectorRecord)
  indexWrites : List DocVecEntry
  deriving DecidableEq

/-- No collection created, no vector upserted, no index entry written. -/
def noEffects : IngestEffects :=
  { createdCollection := false, upserts := [], indexWrites := [] }

/-- `addDocumentToNamespace` (source lines 477-579). `embedChunks` /
`split` / `upsertOk` stand for the embedder, the configured text splitter
applied to the page content, and the backend's per-batch/attempt upsert
outcomes; `metaSourceId` digests the document metadata spread into every
payload; `cachedOutcome` stands for `processCachedVectors`, taken only when
`skipCache` is set and a cache exists (lines 492-497). All thrown errors are
caught at line 575 and converted to `{ vectorized: false, error }`. -/
def addDocumentToNamespace (embedChunks : List String → List (List ℚ))
    (split : String → List String) (nsExists : Bool)
    (upsertOk : Nat → Nat → Bool) (metaSourceId : String) (docId : Nat)
    (pageContent : String) (skipCache cacheExists : Bool)
    (cachedOutcome : AddReturn × IngestEffects) : AddReturn × IngestEffects :=
  if pageContent = "" then (.invalidInput, noEffects)
  else if skipCache = true ∧ cacheExists = true then cachedOutcome
  else
    match embedAllBatches embedChunks (sliceBatches 50 (split pageContent)) with
    | none => (.result false (some "Failed to embed batch"), noEffects)
    | some pairs =>
      -- vectorDimension is captured from the first embedded vector (line 535);
      -- getOrCreateCollection throws on a null dimension (line 436)
      if (buildAllRecords metaSourceId 0 pairs).isEmpty ∧ nsExists = false then
        (.result false (some "Unable to infer vector dimension"), noEffects)
      else
        match batchInsertVectors upsertOk (buildAllRecords metaSourceId 0 pairs) 3 with
        | (.error e, ups, _) =>
          (.result false (some e),
           { createdCollection := !nsExists, upserts := ups, indexWrites := [] })
        | (.ok _, ups, _) =>
          (.result true none,
           { createdCollection := !nsExists, upserts := ups,
             indexWrites := (buildAllRecords metaSourceId 0 pairs).map
               fun v => { docId := docId, vectorId := v.id } })

theorem embedAllBatches_none_of_empty_batch
    (embedChunks : List String → List (List ℚ)) :
    ∀ (bs : List (List String)), (∃ b ∈ bs, embedChunks b = []) →
      embedAllBatches embedChunks bs = none := by
  intro bs
  induction bs with
  | nil => rintro ⟨b, hb, _⟩; cases hb
  | cons b0 rest ih =>
    rintro ⟨b, hb, hbe⟩
    simp only [embedAllBatches]
    rcases List.mem_cons.mp hb with rfl | hmem
    · rw [if_pos (by simp [hbe])]
    · by_cases h0 : (embedChunks b0).isEmpty
      · rw [if_pos h0]
      · rw [if_neg h0, ih ⟨b, hmem, hbe⟩]

/-- C6: in the fresh path of `addDocumentToNamespace`, the chunks are embedded
as the ordered 50-slices of the splitter output (each batch non-empty and of
at most 50 chunks, jointly covering all chunks in order), and if any batch
returns zero embeddings the call returns the `Failed to embed batch` error
with nothing committed: no collection created, no vector upserted, no
document-to-vector index entry written. -/
theorem addDocument_embed_batching (embedChunks : List String → List (List ℚ))
    (split : String → List String) (nsExists : Bool)
    (upsertOk : Nat → Nat → Bool) (metaSourceId : String) (docId : Nat)
    (pageContent : String) (skipCache cacheExists : Bool)
    (cachedOutcome : AddReturn × IngestEffects)
    (hfresh : ¬(skipCache = true ∧ cacheExists = true))
    (hpc : pageContent ≠ "")
    (hempty : ∃ b ∈ sliceBatches 50 (split pageContent), embedChunks b = []) :
    addDocumentToNamespace embedChunks split nsExists upsertOk metaSourceId
        docId pageContent skipCache cacheExists cachedOutcome =
      (.result false (some "Failed to embed batch"), noEffects) ∧
    (∀ b ∈ sliceBatches 50 (split pageContent),
      0 < b.length ∧ b.length ≤ 50) ∧
    (sliceBatches 50 (split pageContent)).flatten = split pageContent := by
  refine ⟨?_, sliceBatches_mem_bounds 50 (by omega) _,
    sliceBatches_join 50 (by omega) _⟩
  unfold addDocumentToNamespace
  rw [if_neg hpc, if_neg hfresh,
    embedAllBatches_none_of_empty_batch embedChunks _ hempty]

/-- Witness for C6: a one-chunk document whose (only) embedding batch returns
no vectors aborts with the embedding error and empty effects. -/
theorem addDocument_embed_batching_witness :
    addDocumentToNamespace (fun _ => []) (fun _ => ["c1"]) true
        (fun _ _ => true) "sid" 1 "doc" false false (.invalidInput, noEffects) =
      (.result false (some "Failed to embed batch"), noEffects) :=
  (addDocument_embed_batching (fun _ => []) (fun _ => ["c1"]) true
      (fun _ _ => true) "sid" 1 "doc" false false (.invalidInput, noEffects)
      (by simp) (by decide)
      ⟨["c1"], by decide, rfl⟩).1

theorem upsertAttempts_first_ok (g : Nat → Bool) (h0 : g 0 = true) :
    upsertAttempts g 3 0 = (true, []) := by
  simp [upsertAttempts, h0]

theorem upsertAttempts_all_fail (g : Nat → Bool) (h0 : g 0 = false)
    (h1 : g 1 = false) (h2 : g 2 = false) :
    upsertAttempts g 3 0 = (false, [1000, 2000]) := by
  simp [upsertAttempts, h0, h1, h2]

theorem batchInsertLoop_ok (ok : Nat → Nat → Bool) :
    ∀ (bs : List (List VectorRecord)) (i : Nat) (u : List (List VectorRecord))
      (ds : List Nat), batchInsertLoop ok 3 bs i = (.ok (), u, ds) → u = bs := by
  intro bs
  induction bs with
  | nil =>
    intro i u ds h
    simp only [batchInsertLoop] at h
    exact (congrArg (fun p => p.2.1) h).symm
  | cons b rest ih =>
    intro i u ds h
    simp only [batchInsertLoop] at h
    rcases ha : upsertAttempts (ok i) 3 0 with ⟨s, ds0⟩
    rw [ha] at h
    cases s with
    | true =>
      rcases hrec : batchInsertLoop ok 3 rest (i + 1) with ⟨r, ups, ds2⟩
      rw [hrec] at h
      have hr : r = .ok () := congrArg (fun p => p.1) h
      have hu : u = b :: ups := (congrArg (fun p => p.2.1) h).symm
      rw [hu, ih (i + 1) ups ds2 (by rw [hrec, hr])]
    | false =>
      exact absurd (congrArg (fun p => p.1) h) (by simp)

theorem batchInsertLoop_fail (ok : Nat → Nat → Bool) :
    ∀ (bs : List (List VectorRecord)) (i k : Nat), k < bs.length →
      (∀ j, j < k → ok (i + j) 0 = true) →
      (∀ a, a < 3 → ok (i + k) a = false) →
      batchInsertLoop ok 3 bs i =
        (.error "Failed to insert batch after 3 attempts", bs.take k,
          [1000, 2000]) := by
  intro bs
  induction bs with
  | nil =>
    intro i k hk hprev hfail
    exact absurd hk (by simp)
  | cons b rest ih =>
    intro i k hk hprev hfail
    cases k with
    | zero =>
      simp only [batchInsertLoop]
      rw [upsertAttempts_all_fail (ok i)
        (by simpa using hfail 0 (by omega))
        (by simpa using hfail 1 (by omega))
        (by simpa using hfail 2 (by omega))]
      simp
    | succ k =>
      simp only [batchInsertLoop]
      rw [upsertAttempts_first_ok (ok i) (by simpa using hprev 0 (by omega))]
      rw [ih (i + 1) k (by simpa using hk)
        (fun j hj => by
          have := hprev (j + 1) (by omega)
          simpa [Nat.add_assoc, Nat.add_comm 1 j] using this)
        (fun a ha => by
          have := hfail a ha
          simpa [Nat.add_assoc, Nat.add_comm 1 k] using this)]
      simp

/-- C7: `batchInsertVectors` submits the vectors as the ordered 100-slices
(each non-empty, of at most 100 records, jointly covering all vectors); on
success every batch was upserted; a batch failing all 3 attempts fails the
call with the exhaustion error while the earlier batches stay upserted (no
rollback) and the backoff delays slept for it are 1000 then 2000 ms (doubling
per attempt, none after the final throw); a batch succeeding at the third
attempt still succeeds; and an upsert failure makes the whole
`addDocumentToNamespace` call return `{ vectorized: false, error }` with the
partial upserts kept and no index entry written. -/
theorem batchInsertVectors_spec (ok : Nat → Nat → Bool)
    (vectors : List VectorRecord) :
    ((sliceBatches 100 vectors).flatten = vectors) ∧
    (∀ b ∈ sliceBatches 100 vectors, 0 < b.length ∧ b.length ≤ 100) ∧
    (∀ u ds, batchInsertVectors ok vectors 3 = (.ok (), u, ds) →
      u = sliceBatches 100 vectors) ∧
    (∀ k, k < (sliceBatches 100 vectors).length →
      (∀ j, j < k → ok j 0 = true) →
      (∀ a, a < 3 → ok k a = false) →
      batchInsertVectors ok vectors 3 =
        (.error "Failed to insert batch after 3 attempts",
          (sliceBatches 100 vectors).take k, [1000, 2000])) ∧
    (∀ g : Nat → Bool, g 0 = false → g 1 = false → g 2 = true →
      upsertAttempts g 3 0 = (true, [1000, 2000])) ∧
    (∀ (embedChunks : List String → List (List ℚ))
        (split : String → List String) (nsExists : Bool)
        (metaSourceId : String) (docId : Nat) (pageContent : String)
        (skipCache cacheExists : Bool)
        (cachedOutcome : AddReturn × IngestEffects)
        (pairs : List (List String × List (List ℚ)))
        (e : String) (ups : List (List VectorRecord)) (ds : List Nat),
      ¬(skipCache = true ∧ cacheExists = true) → pageContent ≠ "" →
      embedAllBatches embedChunks (sliceBatches 50 (split pageContent)) =
        some pairs →
      ¬((buildAllRecords metaSourceId 0 pairs).isEmpty ∧ nsExists = false) →
      batchInsertVectors ok (buildAllRecords metaSourceId 0 pairs) 3 =
        (.error e, ups, ds) →
      addDocumentToNamespace embedChunks split nsExists ok metaSourceId docId
          pageContent skipCache cacheExists cachedOutcome =
        (.result false (some e),
          { createdCollection := !nsExists, upserts := ups,
            indexWrites := [] })) := by
  refine ⟨sliceBatches_join 100 (by omega) vectors,
    sliceBatches_mem_bounds 100 (by omega) vectors, ?_, ?_, ?_, ?_⟩
  · intro u ds h
    exact batchInsertLoop_ok ok (sliceBatches 100 vectors) 0 u ds h
  · intro k hk hprev hfail
    exact batchInsertLoop_fail ok (sliceBatches 100 vectors) 0 k hk
      (fun j hj => by simpa using hprev j hj)
      (fun a ha => by simpa using hfail a ha)
  · intro g h0 h1 h2
    simp [upsertAttempts, h0, h1, h2]
  · intro embedChunks split nsExists metaSourceId docId pageContent skipCache
      cacheExists cachedOutcome pairs e ups ds hfresh hpc hemb hdim hbatch
    unfold addDocumentToNamespace
    rw [if_neg hpc, if_neg hfresh]
    split
    case _ hnone =>
      rw [hemb] at hnone
      cases hnone
    case _ pairs2 hsome =>
      rw [hemb] at hsome
      injection hsome with hps
      subst hps
      rw [if_neg hdim, hbatch]

/-- Witness for C7: one record whose only batch fails all three attempts:
the call errors, nothing is upserted, and the delays slept are 1000 then
2000 ms. -/
theorem batchInsertVectors_spec_witness :
    batchInsertVectors (fun _ _ => false) [⟨0, [1], ⟨"t", "s"⟩⟩] 3 =
      (.error "Failed to insert batch after 3 attempts", [], [1000, 2000]) := by
  have h := (batchInsertVectors_spec (fun _ _ => false)
    [⟨0, [1], ⟨"t", "s"⟩⟩]).2.2.2.1 0 (by decide)
    (fun j hj => absurd hj (by omega)) (fun a _ => rfl)
  simpa using h

/-- A row of the `document_vectors` table as returned by
`DocumentVectors.where({ docId })`: `rowId` is the table primary key `id`
passed to `deleteIds`, `vectorId` the qdrant point id. -/
structure DocVectorRow where
  rowId : Nat
  docId : Nat
  vectorId : Nat
  deriving DecidableEq

/-- What one `deleteDocumentFromNamespace` call removes: the point-id batches
passed to `client.delete` and the row ids passed to
`DocumentVectors.deleteIds`. -/
structure DeleteEffects where
  pointDeleteBatches : List (List Nat)
  indexDeletes : List Nat
  deriving DecidableEq

/-- `deleteDocumentFromNamespace(namespace, docId)` (source lines 677-709):
no-op success when the namespace does not exist (line 682) or when no vector
ids are recorded for the document (line 685); otherwise delete the recorded
vector ids from the namespace in batches of 100 (lines 690-697) and then
remove the index rows (lines 699-700). `knownDocuments` is the
`DocumentVectors.where({ docId })` result. -/
def deleteDocumentFromNamespace (nsExists : Bool)
    (knownDocuments : List DocVectorRow) : Bool × DeleteEffects :=
  if nsExists = false then (true, ⟨[], []⟩)
  else if knownDocuments.length = 0 then (true, ⟨[], []⟩)
  else
    (true,
     { pointDeleteBatches :=
         sliceBatches 100 (knownDocuments.map fun d => d.vectorId),
       indexDeletes := knownDocuments.map fun d => d.rowId })

/-- C8: `deleteDocumentFromNamespace` returns success with zero deletions when
the namespace does not exist or when no vector ids are recorded for the
document; otherwise it succeeds after deleting exactly the recorded vector
ids, in order, in batches of at most 100, and removing the index rows. -/
theorem deleteDocument_spec (nsExists : Bool)
    (knownDocuments : List DocVectorRow) :
    (nsExists = false →
      deleteDocumentFromNamespace nsExists knownDocuments = (true, ⟨[], []⟩)) ∧
    (knownDocuments = [] →
      deleteDocumentFromNamespace nsExists knownDocuments = (true, ⟨[], []⟩)) ∧
    (nsExists = true → knownDocuments ≠ [] →
      deleteDocumentFromNamespace nsExists knownDocuments =
        (true,
         { pointDeleteBatches :=
             sliceBatches 100 (knownDocuments.map fun d => d.vectorId),
           indexDeletes := knownDocuments.map fun d => d.rowId }) ∧
      (sliceBatches 100 (knownDocuments.map fun d => d.vectorId)).flatten =
        knownDocuments.map (fun d => d.vectorId) ∧
      (∀ b ∈ sliceBatches 100 (knownDocuments.map fun d => d.vectorId),
        0 < b.length ∧ b.length ≤ 100)) := by
  refine ⟨?_, ?_, ?_⟩
  · intro h
    unfold deleteDocumentFromNamespace
    rw [if_pos h]
  · intro h
    subst h
    by_cases h1 : nsExists = false
    · simp [deleteDocumentFromNamespace, h1]
    · simp [deleteDocumentFromNamespace, h1]
  · intro h1 h2
    refine ⟨?_, sliceBatches_join 100 (by omega) _,
      sliceBatches_mem_bounds 100 (by omega) _⟩
    unfold deleteDocumentFromNamespace
    rw [if_neg (by simp [h1]),
      if_neg (by simpa [List.length_eq_zero] using h2)]

/-- Witness for C8: an unknown docId (no recorded rows) in an existing
namespace is success with zero deletions. -/
theorem deleteDocument_spec_witness :
    deleteDocumentFromNamespace true [] = (true, ⟨[], []⟩) :=
  (deleteDocument_spec true []).2.1 rfl

end QDrant

namespace Collector

/-- The outcome of a converter call: the structured result plus whether
`trashFile(fullFilePath)` ran before returning. On success `documents` holds
the written document record, represented by its combined page content. -/
structure ConvertOutcome where
  success : Bool
  reason : Option String
  documents : List String
  trashed : Bool
  deriving DecidableEq

/-- The extraction loop shared by both converters (asDocX lines 64-81, the
asPdf parse callback lines 82-99): keep each loaded page whose content is a
string (`none` models a missing/non-string `pageContent`) and non-empty after
trimming, in order, trimmed. -/
def usablePages (docs : List (Option String)) : List String :=
  docs.filterMap fun c =>
    c.bind fun s => if jsTrim s = "" then none else some (jsTrim s)

/-- `asDocX({ fullFilePath, filename })` (src/unnamed/part_000).
`load` is the `DocxLoader.load()` outcome (per-document `pageContent`, `none`
when missing or not a string); `writeOk` whether `writeToServerDocuments`
succeeds. Failures of `createdDate`/`tokenizeString` have in-code fallbacks
and cannot change the control flow modelled here. -/
def asDocX (fullFilePath filename : String)
    (load : Except String (List (Option String))) (writeOk : Bool) :
    ConvertOutcome :=
  if fullFilePath = "" ∨ filename = "" then
    { success := false,
      reason := some "Missing required parameters: fullFilePath and filename are required.",
      documents := [], trashed := false }
  else
    match load with
    | .error e =>
      { success := false, reason := some ("Failed to load DOCX file: " ++ e),
        documents := [], trashed := true }
    | .ok docs =>
      if docs.length = 0 then
        { success := false,
          reason := some ("No documents could be extracted from " ++ filename ++ "."),
          documents := [], trashed := true }
      else if usablePages docs = [] then
        { success := false,
          reason := some ("No meaningful text content found in " ++ filename ++ "."),
          documents := [], trashed := true }
      else if jsTrim (String.intercalate "\n\n" (usablePages docs)) = "" then
        { success := false,
          reason := some ("Combined content resulted in empty text for " ++ filename ++ "."),
          documents := [], trashed := true }
      else if writeOk = false then
        { success := false,
          reason := some "Failed to save processed document",
          documents := [], trashed := true }
      else
        { success := true, reason := none,
          documents := [String.intercalate "\n\n" (usablePages docs)],
          trashed := true }

/-- The OCR contribution to `pageTexts` (asPdf lines 114-133): attempted only
when some parsed page is an image or has no text; OCR failure is swallowed
(`continue with whatever text we extracted`); OCR pages with empty
`pageContent` are skipped. -/
def ocrTexts (results : List (Option String))
    (ocr : Except String (List String)) : List String :=
  if results.any (fun c =>
      match c with
      | none => true
      | some s => jsTrim s = "") then
    match ocr with
    | .ok docs => docs.filter fun s => ¬s = ""
    | .error _ => []
  else []

/-- The final `pageTexts` of `asPdf` (lines 104-146): text pages plus OCR
texts; if still empty, replaced by the `pdf2string` fallback filtered to pages
with non-empty trimmed text (fallback failure swallowed). -/
def pdfPageTexts (results : List (Option String))
    (ocr fallbackExtract : Except String (List String)) : List String :=
  if usablePages results ++ ocrTexts results ocr = [] then
    match fallbackExtract with
    | .ok ts => ts.filter fun s => ¬jsTrim s = ""
    | .error _ => []
  else usablePages results ++ ocrTexts results ocr

/-- `asPdf({ fullFilePath, filename, options })`
(collector/processSingleFile/convert/asPDF/index.js). `read` is the
`fs.readFile` outcome, `parse` the `parsePdf` outcome (`some s` a string page
content, `none` an image page), `ocr` / `fallbackExtract` the OCR loader and
`pdf2string` outcomes. Any throw reaches the outer catch (line 194), which
trashes the source file and returns the negative result. -/
def asPdf (fullFilePath filename : String) (read : Except String Unit)
    (parse : Except String (List (Option String)))
    (ocr fallbackExtract : Except String (List String)) : ConvertOutcome :=
  match read with
  | .error e =>
    { success := false, reason := some ("Failed to process PDF: " ++ e),
      documents := [], trashed := true }
  | .ok _ =>
    match parse with
    | .error e =>
      { success := false, reason := some ("Failed to process PDF: " ++ e),
        documents := [], trashed := true }
    | .ok results =>
      if pdfPageTexts results ocr fallbackExtract = [] then
        { success := false,
          reason := some ("No text content found in " ++ filename ++ "."),
          documents := [], trashed := true }
      else
        { success := true, reason := none,
          documents :=
            [String.intercalate "\n\n" (pdfPageTexts results ocr fallbackExtract)],
          trashed := true }

/-- C9: for both converters, a loader failure or an extraction yielding no
usable text trashes the source file before returning and yields the
structured negative result `{ success: false, reason, documents: [] }`
instead of raising. -/
theorem converter_failure_cleanup :
    (∀ (fullFilePath filename : String)
        (load : Except String (List (Option String))) (writeOk : Bool),
      fullFilePath ≠ "" → filename ≠ "" →
      ((∃ e, load = .error e) ∨
        (∃ docs, load = .ok docs ∧ usablePages docs = [])) →
      (asDocX fullFilePath filename load writeOk).success = false ∧
      (asDocX fullFilePath filename load writeOk).documents = [] ∧
      (asDocX fullFilePath filename load writeOk).reason ≠ none ∧
      (asDocX fullFilePath filename load writeOk).trashed = true) ∧
    (∀ (fullFilePath filename : String) (read : Except String Unit)
        (parse : Except String (List (Option String)))
        (ocr fallbackExtract : Except String (List String)),
      ((∃ e, read = .error e) ∨ (∃ e, parse = .error e) ∨
        (∃ results, parse = .ok results ∧
          pdfPageTexts results ocr fallbackExtract = [])) →
      (asPdf fullFilePath filename read parse ocr fallbackExtract).success = false ∧
      (asPdf fullFilePath filename read parse ocr fallbackExtract).documents = [] ∧
      (asPdf fullFilePath filename read parse ocr fallbackExtract).reason ≠ none ∧
      (asPdf fullFilePath filename read parse ocr fallbackExtract).trashed = true) := by
  constructor
  · intro ffp fn load writeOk hffp hfn hfail
    have hval : ¬(ffp = "" ∨ fn = "") := by
      rintro (h | h)
      exacts [hffp h, hfn h]
    rcases hfail with ⟨e, rfl⟩ | ⟨docs, rfl, hup⟩
    · simp [asDocX, hval]
    · by_cases hlen : docs.length = 0
      · simp [asDocX, hval, hlen]
      · simp [asDocX, hval, hlen, hup]
  · intro ffp fn read parse ocr fallbackExtract hfail
    rcases hfail with ⟨e, rfl⟩ | ⟨e, rfl⟩ | ⟨results, rfl, hpt⟩
    · simp [asPdf]
    · cases read with
      | error e2 => simp [asPdf]
      | ok u => simp [asPdf]
    · cases read with
      | error e2 => simp [asPdf]
      | ok u => simp [asPdf, hpt]

/-- Witness for C9: a failing DOCX loader yields the negative result with the
source file trashed. -/
theorem converter_failure_cleanup_witness :
    (asDocX "/tmp/a.docx" "a.docx" (.error "corrupt") true).success = false ∧
    (asDocX "/tmp/a.docx" "a.docx" (.error "corrupt") true).documents = [] ∧
    (asDocX "/tmp/a.docx" "a.docx" (.error "corrupt") true).reason ≠ none ∧
    (asDocX "/tmp/a.docx" "a.docx" (.error "corrupt") true).trashed = true :=
  converter_failure_cleanup.1 "/tmp/a.docx" "a.docx" (.error "corrupt") true
    (by decide) (by decide) (Or.inl ⟨"corrupt", rfl⟩)

end Collector

end AnythingLLM
